import Mathlib

/-!
Shallow embedding of the BigCommerce bundle-stock plugin.

Source files embedded here:
* `src/pages/api/bundles/stock.ts` — the `GET /api/bundles/stock` API handler:
  category lookup, paginated catalog fetch, metafield-based bundle detection,
  per-component resolution with partial-failure isolation, top-level error
  handling.
* the bundle stock React page — `toggleExpand` and `getTableItems`
  (search filtering, limiting-component marking).

External calls (`bc.get(...)`, `JSON.parse`) are modelled as an explicit
environment of fallible functions (`Except Unit`); catalog ids and inventory
levels are modelled as naturals, quantities as integers.  JavaScript number
results of `Math.floor(a / q)` are modelled by `JsNum`, which keeps the
`Infinity` / `NaN` outcomes of dividing by zero.
-/

namespace BundlePlugin

/-- Result of a JavaScript arithmetic expression on numbers: either an exact
integer, or one of the non-finite values `Infinity`, `-Infinity`, `NaN`. -/
inductive JsNum where
  | int (z : ℤ)
  | posInf
  | negInf
  | nan
deriving DecidableEq, Repr

/-- `Math.floor(a / q)` on integer operands, with JavaScript semantics:
division by zero yields `Infinity` / `-Infinity` / `NaN`, otherwise the
floor of the exact quotient (`Int.fdiv` rounds toward negative infinity,
exactly as `Math.floor` does). -/
def jsFloorDiv (a q : ℤ) : JsNum :=
  if q = 0 then
    if a = 0 then .nan else if 0 < a then .posInf else .negInf
  else .int (Int.fdiv a q)

/-- JavaScript `x || 0` on an optional numeric field (absent and `0` both
give `0`). -/
def orZero (o : Option ℕ) : ℕ := o.getD 0

/-- JavaScript `x || 1` on the optional `total_pages` field (absent and `0`
both give `1`). -/
def orOne (o : Option ℕ) : ℕ :=
  match o with
  | some n => if n = 0 then 1 else n
  | none => 1

/-- JavaScript `String.prototype.toLowerCase`, character by character. -/
def strLower (s : String) : String := ⟨s.data.map Char.toLower⟩

/-- Metafield as consumed by the handler: `namespace`, `key`, `value`
(the `namespace` field is named `ns` because `namespace` is a Lean keyword). -/
structure Metafield where
  ns : String
  key : String
  value : String
deriving DecidableEq, Repr

/-- Catalog variant, restricted to the fields the handler reads.
`option_values` is the list of option-value labels (`ov.label`). -/
structure Variant where
  id : ℕ
  sku : String
  inventory_level : Option ℕ
  option_values : Option (List String)
deriving DecidableEq, Repr

/-- Catalog product, restricted to the fields the handler reads. -/
structure Product where
  id : ℕ
  name : String
  sku : String
  inventory_level : Option ℕ
  variants : List Variant
deriving DecidableEq, Repr

/-- Catalog category (`id`, `name`), as returned by `/catalog/categories`. -/
structure Category where
  id : ℕ
  name : String
deriving DecidableEq, Repr

/-- Parsed linked-component reference: `productId` (required), `variantId`
(optional), `quantity`.  The quantity is an integer so that malformed
(zero or negative) quantities can be represented. -/
structure LinkedRef where
  productId : ℕ
  variantId : Option ℕ
  quantity : ℤ
deriving DecidableEq, Repr

/-- Modelled from the spec: `parseLinkedProduct` lives in
`lib/bundle-calculator`, which is not part of the sources here.  Per the
spec's data model, a linked component reference "parsed from JSON, yields
productId (required), variantId (optional), quantity" — the JSON entry is
modelled as the already-typed triple, and the parse returns its fields
unchanged. -/
def parseLinkedProduct (linkedProduct : LinkedRef) : LinkedRef := linkedProduct

/-- `BundleComponent` from `stock.ts`.  `maxBundles` is a `JsNum` because it
is computed by `Math.floor(stock / quantity)`. -/
structure BundleComponent where
  productId : ℕ
  variantId : Option ℕ
  name : String
  sku : String
  quantity : ℤ
  stock : ℕ
  maxBundles : JsNum
deriving DecidableEq, Repr

/-- `BundleStockInfo` from `stock.ts`. -/
structure BundleStockInfo where
  id : ℕ
  name : String
  sku : String
  stock : ℕ
  components : List BundleComponent
deriving DecidableEq, Repr

/-- One page of the paginated `/catalog/products` response: the `data`
array and `meta?.pagination?.total_pages` (optional). -/
structure Page where
  data : List Product
  total_pages : Option ℕ
deriving Repr

/-- The external world as the handler sees it: each remote call (and
`JSON.parse` of a linked-component list) is a function that may fail.
`productsPage` takes the bundle category id and the page number. -/
structure Env where
  categories : Except Unit (List Category)
  productsPage : ℕ → ℕ → Except Unit Page
  productMetafields : ℕ → Except Unit (List Metafield)
  variantMetafields : ℕ → ℕ → Except Unit (List Metafield)
  productDetail : ℕ → Except Unit Product
  variantDetail : ℕ → ℕ → Except Unit Variant
  parseJson : String → Except Unit (List LinkedRef)

/-- `metafields.find(f => f.key === k && f.namespace === 'bundle')`. -/
def findMeta (ms : List Metafield) (k : String) : Option Metafield :=
  ms.find? (fun f => f.key == k && f.ns == "bundle")

/-- `metafields.find(...is_bundle...)?.value === 'true'`. -/
def isBundleFlagged (ms : List Metafield) : Bool :=
  match findMeta ms "is_bundle" with
  | some f => f.value == "true"
  | none => false

/-- `variant.option_values?.map(ov => ov.label).join(' - ') || 'Variant'`:
absent option values, or a join that is the empty string (falsy), fall back
to the literal `"Variant"`. -/
def variantLabel (option_values : Option (List String)) : String :=
  match option_values with
  | none => "Variant"
  | some labels =>
    let joined := String.intercalate " - " labels
    if joined = "" then "Variant" else joined

/-- Resolution of one linked component reference (the `try`/`catch` body of
the component loop in `stock.ts`, identical at product level and at variant
level): fetch the variant plus its parent product (or the product alone),
build the display name, read the stock, compute
`Math.floor((inventory_level || 0) / quantity)`; on any fetch failure push
the `"Unknown Component"` placeholder instead. -/
def resolveComponent (env : Env) (r : LinkedRef) : BundleComponent :=
  match r.variantId with
  | some vid =>
    match env.variantDetail r.productId vid, env.productDetail r.productId with
    | .ok variant, .ok parentProduct =>
      { productId := r.productId
        variantId := some vid
        name := parentProduct.name ++ " - " ++ variantLabel variant.option_values
        sku := variant.sku
        quantity := r.quantity
        stock := orZero variant.inventory_level
        maxBundles := jsFloorDiv (orZero variant.inventory_level) r.quantity }
    | _, _ =>
      { productId := r.productId
        variantId := some vid
        name := "Unknown Component"
        sku := "N/A"
        quantity := r.quantity
        stock := 0
        maxBundles := .int 0 }
  | none =>
    match env.productDetail r.productId with
    | .ok componentProduct =>
      { productId := r.productId
        variantId := none
        name := componentProduct.name
        sku := componentProduct.sku
        quantity := r.quantity
        stock := orZero componentProduct.inventory_level
        maxBundles := jsFloorDiv (orZero componentProduct.inventory_level) r.quantity }
    | .error _ =>
      { productId := r.productId
        variantId := none
        name := "Unknown Component"
        sku := "N/A"
        quantity := r.quantity
        stock := 0
        maxBundles := .int 0 }

/-- Product-level bundle detection: if the product's metafields carry
`is_bundle = "true"` (namespace `bundle`) and a `linked_product_ids` sibling,
parse the linked list and produce the product's `BundleStockInfo`; a missing
sibling produces nothing; a `JSON.parse` failure propagates (it is caught
only at the top level). -/
def productBundleRecords (env : Env) (product : Product) (ms : List Metafield) :
    Except Unit (List BundleStockInfo) :=
  if isBundleFlagged ms then
    match findMeta ms "linked_product_ids" with
    | some linkedField =>
      match env.parseJson linkedField.value with
      | .ok linkedProductIds =>
        .ok [{ id := product.id
               name := product.name
               sku := product.sku
               stock := orZero product.inventory_level
               components := linkedProductIds.map
                 (fun l => resolveComponent env (parseLinkedProduct l)) }]
      | .error e => .error e
    | none => .ok []
  else .ok []

/-- Variant-level bundle detection, mirroring `productBundleRecords`: the
record's id is the variant id, the name is
`"<product name> - <variant option labels>"`, sku and stock come from the
variant. -/
def variantBundleRecords (env : Env) (product : Product) (variant : Variant)
    (ms : List Metafield) : Except Unit (List BundleStockInfo) :=
  if isBundleFlagged ms then
    match findMeta ms "linked_product_ids" with
    | some linkedField =>
      match env.parseJson linkedField.value with
      | .ok linkedProductIds =>
        .ok [{ id := variant.id
               name := product.name ++ " - " ++ variantLabel variant.option_values
               sku := variant.sku
               stock := orZero variant.inventory_level
               components := linkedProductIds.map
                 (fun l => resolveComponent env (parseLinkedProduct l)) }]
      | .error e => .error e
    | none => .ok []
  else .ok []

/-- The `for (const variant of product.variants)` loop: fetch each variant's
metafields and append its bundle records, in variant-list order; any
metafield-fetch or parse failure aborts the whole request. -/
def processVariants (env : Env) (product : Product) :
    List Variant → Except Unit (List BundleStockInfo)
  | [] => .ok []
  | variant :: rest =>
    match env.variantMetafields product.id variant.id with
    | .error e => .error e
    | .ok ms =>
      match variantBundleRecords env product variant ms with
      | .error e => .error e
      | .ok recs =>
        match processVariants env product rest with
        | .error e => .error e
        | .ok restRecs => .ok (recs ++ restRecs)

/-- Processing of one catalog product: product-level metafields and bundle
record first, then the variant loop. -/
def processProduct (env : Env) (product : Product) :
    Except Unit (List BundleStockInfo) :=
  match env.productMetafields product.id with
  | .error e => .error e
  | .ok ms =>
    match productBundleRecords env product ms with
    | .error e => .error e
    | .ok recs =>
      match processVariants env product product.variants with
      | .error e => .error e
      | .ok variantRecs => .ok (recs ++ variantRecs)

/-- The `for (const product of products)` loop: bundle records accumulate in
catalog iteration order. -/
def processProducts (env : Env) : List Product → Except Unit (List BundleStockInfo)
  | [] => .ok []
  | product :: rest =>
    match processProduct env product with
    | .error e => .error e
    | .ok recs =>
      match processProducts env rest with
      | .error e => .error e
      | .ok restRecs => .ok (recs ++ restRecs)

/-- The `while (hasMorePages)` pagination loop, with explicit fuel (the
JavaScript loop is unbounded; fuel exhaustion is reported as an error and
every pagination theorem supplies enough fuel).  Returns the concatenated
product list together with the list of page numbers requested, in order. -/
def fetchPagesAux (env : Env) (catId : ℕ) :
    ℕ → ℕ → List Product → List ℕ → Except Unit (List Product × List ℕ)
  | 0, _, _, _ => .error ()
  | fuel + 1, currentPage, acc, requested =>
    match env.productsPage catId currentPage with
    | .error e => .error e
    | .ok response =>
      let allProducts := acc ++ response.data
      let requestedSoFar := requested ++ [currentPage]
      let totalPages := orOne response.total_pages
      if currentPage < totalPages then
        fetchPagesAux env catId fuel (currentPage + 1) allProducts requestedSoFar
      else
        .ok (allProducts, requestedSoFar)

/-- Catalog fetcher: start at page 1 with empty accumulators. -/
def fetchAllPages (env : Env) (catId : ℕ) (fuel : ℕ) :
    Except Unit (List Product × List ℕ) :=
  fetchPagesAux env catId fuel 1 [] []

/-- `categories.find(c => String(c?.name || '').toLowerCase() === 'bundle')`. -/
def findBundleCategory (categories : List Category) : Option Category :=
  categories.find? (fun c => strLower c.name == "bundle")

/-- The body of the handler's `try` block after session resolution: category
lookup (no category short-circuits to the empty bundle list), pagination,
then the product loop. -/
def runHandlerCore (env : Env) (fuel : ℕ) : Except Unit (List BundleStockInfo) :=
  match env.categories with
  | .error e => .error e
  | .ok categories =>
    match findBundleCategory categories with
    | none => .ok []
    | some bundleCategory =>
      match fetchAllPages env bundleCategory.id fuel with
      | .error e => .error e
      | .ok fetched => processProducts env fetched.1

/-- Session as returned by `getSession` (opaque to the handler's logic). -/
structure Session where
  accessToken : String
  storeHash : String

/-- HTTP responses of the handler: 405 `{message: 'Method not allowed'}`,
401 `{message: 'Unauthorized'}`, 200 `{bundles}`, and 500
`{message: 'Error fetching bundle stock'}` (the 500 body carries no bundle
list). -/
inductive Response where
  | methodNotAllowed
  | unauthorized
  | ok (bundles : List BundleStockInfo)
  | serverError
deriving DecidableEq, Repr

/-- The full handler: method check, session check, then the `try` block whose
failures all surface as the generic 500. -/
def handler (env : Env) (fuel : ℕ) (method : String) (session : Option Session) :
    Response :=
  if method ≠ "GET" then .methodNotAllowed
  else
    match session with
    | none => .unauthorized
    | some _ =>
      match runHandlerCore env fuel with
      | .ok bundles => .ok bundles
      | .error _ => .serverError

/-! ### Presentation layer (the bundle stock React page) -/

/-- `BundleComponent` as the page declares it (`maxBundles: number`; the page
consumes the JSON payload, so all numbers are plain). -/
structure FComponent where
  productId : ℤ
  variantId : Option ℤ
  name : String
  sku : String
  quantity : ℤ
  stock : ℤ
  maxBundles : ℤ
deriving DecidableEq, Repr

/-- `Bundle` as the page declares it, with the optional client-side
`isExpanded` flag. -/
structure FBundle where
  id : ℤ
  name : String
  sku : String
  stock : ℤ
  components : List FComponent
  isExpanded : Option Bool
deriving DecidableEq, Repr

/-- `toggleExpand`: map over the list, replacing the matching bundle with a
copy whose `isExpanded` is the JavaScript negation of the old flag
(`!undefined = true`, `!false = true`, `!true = false`). -/
def toggleExpand (bundles : List FBundle) (bundleId : ℤ) : List FBundle :=
  bundles.map (fun bundle =>
    if bundle.id == bundleId then
      { bundle with isExpanded := some (! bundle.isExpanded.getD false) }
    else bundle)

/-- Does `needle` occur at the start of `hay`? (character-list helper for
JavaScript `String.prototype.includes`). -/
def startsWithL : List Char → List Char → Bool
  | _, [] => true
  | [], _ :: _ => false
  | a :: as, b :: bs => a == b && startsWithL as bs

/-- Does `needle` occur anywhere in `hay`? -/
def containsSubL : List Char → List Char → Bool
  | [], needle => needle.isEmpty
  | a :: as, needle => startsWithL (a :: as) needle || containsSubL as needle

/-- JavaScript `hay.includes(needle)`. -/
def jsIncludes (hay needle : String) : Bool := containsSubL hay.data needle.data

/-- The filter predicate of `getTableItems`: an empty query (falsy) keeps
everything, otherwise case-insensitive substring match over bundle name and
sku. -/
def matchesQuery (bundle : FBundle) (searchQuery : String) : Bool :=
  if searchQuery = "" then true
  else
    let query := strLower searchQuery
    jsIncludes (strLower bundle.name) query || jsIncludes (strLower bundle.sku) query

/-- `components.length > 0 ? Math.min(...components.map(c => c.maxBundles)) : 0`. -/
def minMaxBundles (components : List FComponent) : ℤ :=
  match components with
  | [] => 0
  | c :: rest => rest.foldl (fun m x => min m x.maxBundles) c.maxBundles

/-- Rows pushed by `getTableItems`: the main bundle row (id `bundle.id`,
dashes rendered for quantity and maxBundles), and component rows (string id
`"<bundleId>-component-<idx>"`). -/
inductive TableItem where
  | bundleRow (id : ℤ) (name sku : String) (stock : ℤ) (bundle : FBundle)
  | componentRow (id : String) (name sku : String) (stock quantity maxBundles : ℤ)
      (isLimiting : Bool)
deriving DecidableEq, Repr

/-- The rows contributed by one filtered bundle: the main row always, then —
only when expanded — one row per component carrying
`isLimiting = (component.maxBundles === minMaxBundles)`. -/
def bundleItems (bundle : FBundle) : List TableItem :=
  let minMax := minMaxBundles bundle.components
  TableItem.bundleRow bundle.id bundle.name bundle.sku bundle.stock bundle ::
    (if bundle.isExpanded.getD false then
      bundle.components.enum.map (fun e =>
        TableItem.componentRow
          (toString bundle.id ++ "-component-" ++ toString e.1)
          e.2.name e.2.sku e.2.stock e.2.quantity e.2.maxBundles
          (e.2.maxBundles == minMax))
    else [])

/-- `getTableItems`: filter by the search query, then push each bundle's rows
in order. -/
def getTableItems (bundles : List FBundle) (searchQuery : String) : List TableItem :=
  (bundles.filter (fun b => matchesQuery b searchQuery)).flatMap bundleItems

/-- The `isLimiting` flag a row carries (bundle rows have none). -/
def rowIsLimiting : TableItem → Bool
  | .componentRow _ _ _ _ _ _ isLimiting => isLimiting
  | .bundleRow _ _ _ _ _ => false

/-! ### Helper lemmas -/

/-- For a natural stock and a positive quantity, the JavaScript floor
division is the floor of the exact rational quotient, and that floor is
non-negative. -/
theorem jsFloorDiv_pos_quantity (s : ℕ) (q : ℤ) (hq : 0 < q) :
    jsFloorDiv (s : ℤ) q = JsNum.int ⌊(s : ℚ) / (q : ℚ)⌋ ∧
      0 ≤ ⌊(s : ℚ) / (q : ℚ)⌋ := by
  have hqt : ((q.toNat : ℤ)) = q := Int.toNat_of_nonneg hq.le
  have hfl : ⌊((s : ℤ) : ℚ) / ((q.toNat : ℕ) : ℚ)⌋ = (s : ℤ) / (q.toNat : ℤ) :=
    Rat.floor_intCast_div_natCast (s : ℤ) q.toNat
  have hcast : ((s : ℤ) : ℚ) = (s : ℚ) := by push_cast; ring
  have hcast2 : (((q.toNat : ℕ)) : ℚ) = (q : ℚ) := by exact_mod_cast hqt
  rw [hcast, hcast2] at hfl
  constructor
  · rw [jsFloorDiv, if_neg (ne_of_gt hq), hfl, hqt, Int.fdiv_eq_ediv _ hq.le]
  · rw [hfl, hqt]
    exact Int.ediv_nonneg (by positivity) hq.le

/-! ### Sample data for witnesses -/

/-- An environment in which every external call fails; witnesses override the
fields they need. -/
def baseEnv : Env where
  categories := .error ()
  productsPage := fun _ _ => .error ()
  productMetafields := fun _ => .error ()
  variantMetafields := fun _ _ => .error ()
  productDetail := fun _ => .error ()
  variantDetail := fun _ _ => .error ()
  parseJson := fun _ => .error ()

/-- A sample authenticated session. -/
def sampleSession : Session where
  accessToken := "token"
  storeHash := "store"

/-- A sample component product with inventory 10. -/
def sampleComponentProduct : Product where
  id := 20
  name := "Widget"
  sku := "W-20"
  inventory_level := some 10
  variants := []

/-- An environment that can resolve product 20. -/
def envWithProduct20 : Env :=
  { baseEnv with
    productDetail := fun pid => if pid = 20 then .ok sampleComponentProduct else .error () }

/-! ### Claim theorems -/

/-- Claim C1: for every resolved component whose required quantity is
positive and whose detail fetch succeeds (variant path: both the variant and
the parent-product fetch; product path: the product fetch), `maxBundles`
equals the floor of stock over quantity — stock being the fetched inventory
level with absence read as 0 — and that value is a non-negative integer. -/
theorem c1_maxBundles_floor_div (env : Env) (r : LinkedRef) (hq : 0 < r.quantity) :
    (∀ vid variant parentProduct, r.variantId = some vid →
      env.variantDetail r.productId vid = .ok variant →
      env.productDetail r.productId = .ok parentProduct →
      (resolveComponent env r).maxBundles
          = JsNum.int ⌊(orZero variant.inventory_level : ℚ) / (r.quantity : ℚ)⌋ ∧
        0 ≤ ⌊(orZero variant.inventory_level : ℚ) / (r.quantity : ℚ)⌋) ∧
    (∀ componentProduct, r.variantId = none →
      env.productDetail r.productId = .ok componentProduct →
      (resolveComponent env r).maxBundles
          = JsNum.int ⌊(orZero componentProduct.inventory_level : ℚ) / (r.quantity : ℚ)⌋ ∧
        0 ≤ ⌊(orZero componentProduct.inventory_level : ℚ) / (r.quantity : ℚ)⌋) := by
  constructor
  · intro vid variant parentProduct hvid hvd hpd
    have h := jsFloorDiv_pos_quantity (orZero variant.inventory_level) r.quantity hq
    refine ⟨?_, h.2⟩
    simp only [resolveComponent, hvid, hvd, hpd]
    exact h.1
  · intro componentProduct hvid hpd
    have h := jsFloorDiv_pos_quantity (orZero componentProduct.inventory_level) r.quantity hq
    refine ⟨?_, h.2⟩
    simp only [resolveComponent, hvid, hpd]
    exact h.1

/-- Witness for C1 at a concrete input: product 20 with stock 10, quantity 2. -/
theorem c1_maxBundles_floor_div_witness :
    (resolveComponent envWithProduct20
        { productId := 20, variantId := none, quantity := 2 }).maxBundles
        = JsNum.int ⌊(orZero sampleComponentProduct.inventory_level : ℚ) / ((2 : ℤ) : ℚ)⌋ ∧
      0 ≤ ⌊(orZero sampleComponentProduct.inventory_level : ℚ) / ((2 : ℤ) : ℚ)⌋ :=
  (c1_maxBundles_floor_div envWithProduct20
    { productId := 20, variantId := none, quantity := 2 } (by decide)).2
    sampleComponentProduct rfl rfl

/-- Claim C2, evaluated at the failing input: a linked reference that parses
to quantity 0, against a component product with stock 10.  The resolver
performs the division anyway — `Math.floor(10 / 0)` is `Infinity` — instead
of clamping `maxBundles` to 0 as the spec's malformed-reference policy
prescribes. -/
theorem c2_zero_quantity_not_clamped :
    (resolveComponent envWithProduct20
        { productId := 20, variantId := none, quantity := 0 }).maxBundles
      = JsNum.posInf ∧
    (resolveComponent envWithProduct20
        { productId := 20, variantId := none, quantity := 0 }).maxBundles
      ≠ JsNum.int 0 := by
  exact ⟨rfl, by decide⟩

/-- A linked reference whose detail fetch fails: for a variant reference,
either of the two fetches (variant, then parent product); for a plain
product reference, the product fetch. -/
def detailFetchFails (env : Env) (r : LinkedRef) : Prop :=
  match r.variantId with
  | some vid =>
      env.variantDetail r.productId vid = .error () ∨
      env.productDetail r.productId = .error ()
  | none => env.productDetail r.productId = .error ()

/-- Claim C3: a failed component detail fetch does not fail the request or
the enclosing bundle: the failed reference resolves to the placeholder
(name `"Unknown Component"`, sku `"N/A"`, stock 0, maxBundles 0, with
productId, variantId and quantity preserved), and the bundle record is
still produced, its component list mapping every reference — the others
intact — through the resolver. -/
theorem c3_fetch_failure_isolated (env : Env) (product : Product)
    (ms : List Metafield) (linkedField : Metafield) (refs : List LinkedRef)
    (r : LinkedRef)
    (hflag : isBundleFlagged ms = true)
    (hfind : findMeta ms "linked_product_ids" = some linkedField)
    (hparse : env.parseJson linkedField.value = .ok refs)
    (hmem : r ∈ refs)
    (hfail : detailFetchFails env r) :
    resolveComponent env r =
      { productId := r.productId, variantId := r.variantId,
        name := "Unknown Component", sku := "N/A", quantity := r.quantity,
        stock := 0, maxBundles := JsNum.int 0 } ∧
    productBundleRecords env product ms =
      .ok [{ id := product.id, name := product.name, sku := product.sku,
             stock := orZero product.inventory_level,
             components := refs.map
               (fun l => resolveComponent env (parseLinkedProduct l)) }] := by
  constructor
  · obtain ⟨pid, vidOpt, q⟩ := r
    cases vidOpt with
    | none =>
      simp only [detailFetchFails] at hfail
      simp only [resolveComponent, hfail]
    | some vid =>
      simp only [detailFetchFails] at hfail
      rcases hfail with hv | hp
      · simp only [resolveComponent, hv]
      · cases hvd : env.variantDetail pid vid with
        | error e => simp only [resolveComponent, hvd]
        | ok v => simp only [resolveComponent, hvd, hp]
  · simp only [productBundleRecords, hflag, if_true, hfind, hparse]

/-- A sample bundle-flagged product. -/
def sampleBundleProduct : Product where
  id := 10
  name := "Bundle A"
  sku := "BDL-1"
  inventory_level := some 5
  variants := []

/-- A sample variant. -/
def sampleVariant : Variant where
  id := 30
  sku := "V-30"
  inventory_level := some 3
  option_values := some ["Red"]

/-- Sample metafields marking an entity as a bundle with a linked list. -/
def sampleBundleMetafields : List Metafield :=
  [{ ns := "bundle", key := "is_bundle", value := "true" },
   { ns := "bundle", key := "linked_product_ids", value := "[linked]" }]

/-- Two sample references: product 99 (whose fetch fails) and product 20
(whose fetch succeeds). -/
def sampleRefs : List LinkedRef :=
  [{ productId := 99, variantId := none, quantity := 1 },
   { productId := 20, variantId := none, quantity := 2 }]

/-- An environment that resolves product 20, fails every other detail
fetch, and parses the sample linked list. -/
def envPartialFailure : Env :=
  { baseEnv with
    productDetail := fun pid => if pid = 20 then .ok sampleComponentProduct else .error ()
    parseJson := fun s => if s = "[linked]" then .ok sampleRefs else .error () }

/-- Witness for C3 at a concrete input: reference 99 fails, reference 20
resolves, the bundle record is still produced. -/
theorem c3_fetch_failure_isolated_witness :
    resolveComponent envPartialFailure
        { productId := 99, variantId := none, quantity := 1 } =
      { productId := 99, variantId := none,
        name := "Unknown Component", sku := "N/A", quantity := 1,
        stock := 0, maxBundles := JsNum.int 0 } ∧
    productBundleRecords envPartialFailure sampleBundleProduct sampleBundleMetafields =
      .ok [{ id := sampleBundleProduct.id, name := sampleBundleProduct.name,
             sku := sampleBundleProduct.sku,
             stock := orZero sampleBundleProduct.inventory_level,
             components := sampleRefs.map
               (fun l => resolveComponent envPartialFailure (parseLinkedProduct l)) }] :=
  c3_fetch_failure_isolated envPartialFailure sampleBundleProduct
    sampleBundleMetafields
    { ns := "bundle", key := "linked_product_ids", value := "[linked]" }
    sampleRefs { productId := 99, variantId := none, quantity := 1 }
    (by decide) (by decide) rfl (by decide) rfl

/-- Claim C9: an entity flagged `is_bundle = "true"` whose metafields have no
`linked_product_ids` entry produces no bundle record, both at product level
and at variant level. -/
theorem c9_missing_linked_field_skipped (env : Env) (product : Product)
    (variant : Variant) (ms : List Metafield)
    (hflag : isBundleFlagged ms = true)
    (hnone : findMeta ms "linked_product_ids" = none) :
    productBundleRecords env product ms = .ok [] ∧
    variantBundleRecords env product variant ms = .ok [] := by
  constructor
  · simp only [productBundleRecords, hflag, if_true, hnone]
  · simp only [variantBundleRecords, hflag, if_true, hnone]

/-- Metafields carrying the bundle flag but no linked list. -/
def flagOnlyMetafields : List Metafield :=
  [{ ns := "bundle", key := "is_bundle", value := "true" }]

/-- Witness for C9 at a concrete input. -/
theorem c9_missing_linked_field_skipped_witness :
    productBundleRecords baseEnv sampleBundleProduct flagOnlyMetafields = .ok [] ∧
    variantBundleRecords baseEnv sampleBundleProduct sampleVariant flagOnlyMetafields
      = .ok [] :=
  c9_missing_linked_field_skipped baseEnv sampleBundleProduct sampleVariant
    flagOnlyMetafields (by decide) (by decide)

/-- Invariant of the pagination loop when every requested page reports the
same `total_pages = N`: starting at page `c ≤ N` with enough fuel, the loop
requests exactly pages `c, c+1, …, N` in order and appends their data in
page order. -/
theorem fetchPagesAux_const_total (env : Env) (catId : ℕ) (N : ℕ)
    (pages : ℕ → List Product)
    (hpages : ∀ p, 1 ≤ p → p ≤ N →
      env.productsPage catId p = .ok { data := pages p, total_pages := some N }) :
    ∀ fuel c acc req, 1 ≤ c → c ≤ N → N - c < fuel →
      fetchPagesAux env catId fuel c acc req =
        .ok (acc ++ ((List.range' c (N + 1 - c)).map pages).flatten,
             req ++ List.range' c (N + 1 - c)) := by
  intro fuel
  induction fuel with
  | zero => intro c acc req h1 h2 h3; omega
  | succ f ih =>
    intro c acc req h1 h2 h3
    have hN : N ≠ 0 := by omega
    rw [fetchPagesAux, hpages c h1 h2]
    simp only [orOne, hN, if_false, reduceIte]
    by_cases hlt : c < N
    · rw [if_pos hlt]
      have hrec := ih (c + 1) (acc ++ pages c) (req ++ [c])
        (by omega) (by omega) (by omega)
      rw [hrec]
      have hlen : N + 1 - c = (N - c) + 1 := by omega
      have hlen2 : N + 1 - (c + 1) = N - c := by omega
      rw [hlen, List.range'_succ, hlen2]
      simp [List.append_assoc]
    · rw [if_neg hlt]
      have hc : c = N := by omega
      have hlen : N + 1 - c = 1 := by omega
      rw [hlen]
      simp [hc]

/-- Claim C5: when every page response reports `total_pages = N` (with
`N ≥ 1` and enough fuel for the unbounded JavaScript loop), the catalog
fetcher issues exactly `N` page requests, numbered 1 through `N` in order,
and the product list it returns is the concatenation of the `N` pages' data
in page order. -/
theorem c5_pagination_requests (env : Env) (catId : ℕ) (N fuel : ℕ)
    (pages : ℕ → List Product)
    (hN : 1 ≤ N) (hfuel : N ≤ fuel)
    (hpages : ∀ p, 1 ≤ p → p ≤ N →
      env.productsPage catId p = .ok { data := pages p, total_pages := some N }) :
    fetchAllPages env catId fuel =
      .ok (((List.range' 1 N).map pages).flatten, List.range' 1 N) := by
  have h := fetchPagesAux_const_total env catId N pages hpages fuel 1 [] []
    le_rfl hN (by omega)
  simpa using h

/-- Three concrete pages of products. -/
def samplePageData : ℕ → List Product := fun p =>
  if p = 1 then [sampleBundleProduct]
  else if p = 2 then []
  else if p = 3 then [sampleComponentProduct]
  else []

/-- An environment whose product listing has exactly 3 pages, each reporting
`total_pages = 3`. -/
def envThreePages : Env :=
  { baseEnv with
    categories := .ok [{ id := 7, name := "Bundle" }]
    productsPage := fun _ p =>
      if p ≤ 3 then .ok { data := samplePageData p, total_pages := some 3 }
      else .error () }

/-- Witness for C5 at a concrete input: 3 pages, fuel 5 — exactly pages
1, 2, 3 are requested and their data concatenated. -/
theorem c5_pagination_requests_witness :
    fetchAllPages envThreePages 7 5 =
      .ok (((List.range' 1 3).map samplePageData).flatten, List.range' 1 3) :=
  c5_pagination_requests envThreePages 7 3 5 samplePageData (by decide) (by decide)
    (by intro p h1 h2; interval_cases p <;> rfl)

/-- On a GET request with a session, the handler's response is determined by
the outcome of the `try` block body. -/
theorem handler_get_some (env : Env) (fuel : ℕ) (s : Session) :
    handler env fuel "GET" (some s) =
      match runHandlerCore env fuel with
      | .ok bundles => Response.ok bundles
      | .error _ => Response.serverError := by
  simp [handler]

/-- Once the bundle category is found, the `try` block body is the
pagination fetch followed by the product loop. -/
theorem runHandlerCore_found (env : Env) (fuel : ℕ) (cats : List Category)
    (cat : Category)
    (hcats : env.categories = .ok cats)
    (hfind : findBundleCategory cats = some cat) :
    runHandlerCore env fuel =
      match fetchAllPages env cat.id fuel with
      | .error e => .error e
      | .ok fetched => processProducts env fetched.1 := by
  simp only [runHandlerCore, hcats, hfind]

/-- If any product of the catalog fails while being processed, the whole
product loop fails. -/
theorem processProducts_error_of_mem (env : Env) (p : Product) :
    ∀ products, p ∈ products → processProduct env p = .error () →
      processProducts env products = .error () := by
  intro products
  induction products with
  | nil => intro h; cases h
  | cons q rest ih =>
    intro hmem herr
    rcases List.mem_cons.mp hmem with rfl | hmem'
    · simp only [processProducts, herr]
    · cases hq : processProduct env q with
      | error e => simp only [processProducts, hq]
      | ok recs => simp only [processProducts, hq, ih hmem' herr]

/-- A product whose metafield fetch fails makes its processing fail. -/
theorem processProduct_error_of_metafields (env : Env) (p : Product)
    (hms : env.productMetafields p.id = .error ()) :
    processProduct env p = .error () := by
  simp only [processProduct, hms]

/-- A product whose linked-component list fails to parse makes its
processing fail (the parse happens before the variant loop). -/
theorem processProduct_error_of_parse (env : Env) (p : Product)
    (ms : List Metafield) (linkedField : Metafield)
    (hms : env.productMetafields p.id = .ok ms)
    (hflag : isBundleFlagged ms = true)
    (hfind : findMeta ms "linked_product_ids" = some linkedField)
    (hparse : env.parseJson linkedField.value = .error ()) :
    processProduct env p = .error () := by
  simp only [processProduct, hms, productBundleRecords, hflag, if_true, hfind, hparse]

/-- Claim C7: a category-list fetch failure, a page fetch failure, a
product-metafield fetch failure, or a JSON-parse failure on a
linked-component list each fails the whole request: the handler answers
with the generic 500 (`Response.serverError`, which by construction carries
no bundle list, so no partial result is returned). -/
theorem c7_fatal_failures (env : Env) (fuel : ℕ) (s : Session) :
    (env.categories = .error () → handler env fuel "GET" (some s) = .serverError) ∧
    (∀ cats cat, env.categories = .ok cats →
      findBundleCategory cats = some cat →
      env.productsPage cat.id 1 = .error () → 1 ≤ fuel →
      handler env fuel "GET" (some s) = .serverError) ∧
    (∀ cats cat products req p, env.categories = .ok cats →
      findBundleCategory cats = some cat →
      fetchAllPages env cat.id fuel = .ok (products, req) →
      p ∈ products → env.productMetafields p.id = .error () →
      handler env fuel "GET" (some s) = .serverError) ∧
    (∀ cats cat products req p ms linkedField, env.categories = .ok cats →
      findBundleCategory cats = some cat →
      fetchAllPages env cat.id fuel = .ok (products, req) →
      p ∈ products → env.productMetafields p.id = .ok ms →
      isBundleFlagged ms = true →
      findMeta ms "linked_product_ids" = some linkedField →
      env.parseJson linkedField.value = .error () →
      handler env fuel "GET" (some s) = .serverError) := by
  refine ⟨?_, ?_, ?_, ?_⟩
  · intro hcats
    rw [handler_get_some]
    simp only [runHandlerCore, hcats]
  · intro cats cat hcats hfind hpage hfuel
    rw [handler_get_some, runHandlerCore_found env fuel cats cat hcats hfind]
    obtain ⟨f, rfl⟩ : ∃ f, fuel = f + 1 := ⟨fuel - 1, by omega⟩
    rw [fetchAllPages, fetchPagesAux, hpage]
  · intro cats cat products req p hcats hfind hfetch hmem hms
    rw [handler_get_some, runHandlerCore_found env fuel cats cat hcats hfind,
      hfetch]
    show (match processProducts env products with
      | .ok bundles => Response.ok bundles
      | .error _ => Response.serverError) = _
    rw [processProducts_error_of_mem env p products hmem
      (processProduct_error_of_metafields env p hms)]
  · intro cats cat products req p ms linkedField hcats hfind hfetch hmem hms
      hflag hfindm hparse
    rw [handler_get_some, runHandlerCore_found env fuel cats cat hcats hfind,
      hfetch]
    show (match processProducts env products with
      | .ok bundles => Response.ok bundles
      | .error _ => Response.serverError) = _
    rw [processProducts_error_of_mem env p products hmem
      (processProduct_error_of_parse env p ms linkedField hms hflag hfindm hparse)]

/-- The bundle category used by the concrete environments. -/
def sampleCategory : Category where
  id := 7
  name := "Bundle"

/-- Categories fetched, but the page fetch fails. -/
def envPageFailure : Env :=
  { baseEnv with categories := .ok [sampleCategory] }

/-- One catalog page with the sample bundle product, but its metafield fetch
fails. -/
def envMetafieldFailure : Env :=
  { baseEnv with
    categories := .ok [sampleCategory]
    productsPage := fun _ page =>
      if page = 1 then .ok { data := [sampleBundleProduct], total_pages := some 1 }
      else .error () }

/-- Same catalog, metafields present, but the linked list fails to parse. -/
def envParseFailure : Env :=
  { envMetafieldFailure with
    productMetafields := fun pid =>
      if pid = 10 then .ok sampleBundleMetafields else .error () }

/-- Witness for C7 at concrete inputs: each of the four fatal failure kinds
yields the 500 response. -/
theorem c7_fatal_failures_witness :
    handler baseEnv 1 "GET" (some sampleSession) = .serverError ∧
    handler envPageFailure 1 "GET" (some sampleSession) = .serverError ∧
    handler envMetafieldFailure 1 "GET" (some sampleSession) = .serverError ∧
    handler envParseFailure 1 "GET" (some sampleSession) = .serverError :=
  ⟨(c7_fatal_failures baseEnv 1 sampleSession).1 rfl,
   (c7_fatal_failures envPageFailure 1 sampleSession).2.1 [sampleCategory]
     sampleCategory rfl (by decide) rfl (by decide),
   (c7_fatal_failures envMetafieldFailure 1 sampleSession).2.2.1 [sampleCategory]
     sampleCategory [sampleBundleProduct] [1] sampleBundleProduct rfl (by decide)
     rfl (by decide) rfl,
   (c7_fatal_failures envParseFailure 1 sampleSession).2.2.2 [sampleCategory]
     sampleCategory [sampleBundleProduct] [1] sampleBundleProduct
     sampleBundleMetafields
     { ns := "bundle", key := "linked_product_ids", value := "[linked]" }
     rfl (by decide) rfl (by decide) rfl (by decide) (by decide) rfl⟩

/-- If no category is named "Bundle", the `try` block body short-circuits to
the empty bundle list. -/
theorem runHandlerCore_none (env : Env) (fuel : ℕ) (cats : List Category)
    (hcats : env.categories = .ok cats)
    (hnone : findBundleCategory cats = none) :
    runHandlerCore env fuel = .ok [] := by
  simp only [runHandlerCore, hcats, hnone]

/-- A single page with no products and an effective total-page count of 1
makes the fetcher return the empty catalog after one request. -/
theorem fetchAllPages_single_empty (env : Env) (catId : ℕ) (fuel : ℕ)
    (tp : Option ℕ)
    (hpage : env.productsPage catId 1 = .ok { data := [], total_pages := tp })
    (horone : orOne tp = 1) (hfuel : 1 ≤ fuel) :
    fetchAllPages env catId fuel = .ok ([], [1]) := by
  obtain ⟨f, rfl⟩ : ∃ f, fuel = f + 1 := ⟨fuel - 1, by omega⟩
  rw [fetchAllPages, fetchPagesAux, hpage]
  simp only [horone]
  rfl

/-- Claim C4: if no bundle category exists, or the category's product page
is empty, the handler returns the 200 response with an empty bundle list. -/
theorem c4_empty_catalog (env : Env) (fuel : ℕ) (s : Session)
    (cats : List Category)
    (hcats : env.categories = .ok cats) :
    (findBundleCategory cats = none → handler env fuel "GET" (some s) = .ok []) ∧
    (∀ cat tp, findBundleCategory cats = some cat →
      env.productsPage cat.id 1 = .ok { data := [], total_pages := tp } →
      orOne tp = 1 → 1 ≤ fuel →
      handler env fuel "GET" (some s) = .ok []) := by
  constructor
  · intro hnone
    rw [handler_get_some, runHandlerCore_none env fuel cats hcats hnone]
  · intro cat tp hfind hpage horone hfuel
    rw [handler_get_some, runHandlerCore_found env fuel cats cat hcats hfind,
      fetchAllPages_single_empty env cat.id fuel tp hpage horone hfuel]
    rfl

/-- An environment with no category named "Bundle". -/
def envNoCategory : Env :=
  { baseEnv with categories := .ok [{ id := 3, name := "Specials" }] }

/-- An environment whose bundle category has a single empty product page. -/
def envEmptyCategory : Env :=
  { baseEnv with
    categories := .ok [sampleCategory]
    productsPage := fun _ page =>
      if page = 1 then .ok { data := [], total_pages := some 1 } else .error () }

/-- Witness for C4 at concrete inputs: no matching category, and a category
with no products, both answer 200 with an empty bundle list. -/
theorem c4_empty_catalog_witness :
    handler envNoCategory 1 "GET" (some sampleSession) = .ok [] ∧
    handler envEmptyCategory 1 "GET" (some sampleSession) = .ok [] :=
  ⟨(c4_empty_catalog envNoCategory 1 sampleSession [{ id := 3, name := "Specials" }]
      rfl).1 (by decide),
   (c4_empty_catalog envEmptyCategory 1 sampleSession [sampleCategory] rfl).2
     sampleCategory (some 1) (by decide) rfl rfl (by decide)⟩

/-- When every variant of a product yields its records successfully, the
variant loop returns their concatenation in variant-list order. -/
theorem processVariants_ok_flatMap (env : Env) (p0 : Product)
    (perVariant : Variant → List BundleStockInfo) :
    ∀ vs : List Variant,
      (∀ v ∈ vs, ∃ vms, env.variantMetafields p0.id v.id = .ok vms ∧
        variantBundleRecords env p0 v vms = .ok (perVariant v)) →
      processVariants env p0 vs = .ok (vs.flatMap perVariant) := by
  intro vs
  induction vs with
  | nil => intro _; simp [processVariants]
  | cons v rest ih =>
    intro h
    obtain ⟨vms, hvms, hrecs⟩ := h v (List.mem_cons_self v rest)
    have hrest := ih (fun w hw => h w (List.mem_cons_of_mem v hw))
    simp only [processVariants, hvms, hrecs, hrest, List.flatMap_cons]

/-- Claim C6: the bundle records in the output follow catalog iteration
order — the product loop concatenates, product by product in fetch-page
order, each product's own record(s) followed by its variants' records in
variant-list order.  The result is a plain order-preserving concatenation:
no deduplication and no sorting is applied. -/
theorem c6_catalog_iteration_order (env : Env) (products : List Product)
    (perProduct : Product → List BundleStockInfo)
    (p0 : Product) (ms : List Metafield) (own : List BundleStockInfo)
    (perVariant : Variant → List BundleStockInfo) :
    ((∀ p ∈ products, processProduct env p = .ok (perProduct p)) →
      processProducts env products = .ok (products.flatMap perProduct)) ∧
    (env.productMetafields p0.id = .ok ms →
      productBundleRecords env p0 ms = .ok own →
      (∀ v ∈ p0.variants, ∃ vms, env.variantMetafields p0.id v.id = .ok vms ∧
        variantBundleRecords env p0 v vms = .ok (perVariant v)) →
      processProduct env p0 = .ok (own ++ p0.variants.flatMap perVariant)) := by
  constructor
  · induction products with
    | nil => intro _; simp [processProducts]
    | cons p rest ih =>
      intro h
      have hp := h p (List.mem_cons_self p rest)
      have hrest := ih (fun q hq => h q (List.mem_cons_of_mem p hq))
      simp only [processProducts, hp, hrest, List.flatMap_cons]
  · intro hms hown hvars
    simp only [processProduct, hms, hown,
      processVariants_ok_flatMap env p0 perVariant p0.variants hvars]

/-- An environment in which the sample bundle product resolves completely:
its metafields are present, the linked list parses to `sampleRefs`,
component 20 resolves and component 99 fails (yielding the placeholder). -/
def envResolved : Env :=
  { baseEnv with
    productMetafields := fun pid =>
      if pid = 10 then .ok sampleBundleMetafields else .error ()
    productDetail := fun pid =>
      if pid = 20 then .ok sampleComponentProduct else .error ()
    parseJson := fun s => if s = "[linked]" then .ok sampleRefs else .error () }

/-- The record the sample bundle product resolves to in `envResolved`. -/
def sampleResolvedRecord : BundleStockInfo :=
  { id := 10
    name := "Bundle A"
    sku := "BDL-1"
    stock := 5
    components :=
      [{ productId := 99, variantId := none, name := "Unknown Component",
         sku := "N/A", quantity := 1, stock := 0, maxBundles := .int 0 },
       { productId := 20, variantId := none, name := "Widget", sku := "W-20",
         quantity := 2, stock := 10, maxBundles := .int 5 }] }

/-- Witness for C6 at a concrete input: a one-product catalog whose record
list is exactly the per-product flatMap, and the product's own processing
is its own record followed by its (empty) variant contribution. -/
theorem c6_catalog_iteration_order_witness :
    processProducts envResolved [sampleBundleProduct]
      = .ok ([sampleBundleProduct].flatMap (fun _ => [sampleResolvedRecord])) ∧
    processProduct envResolved sampleBundleProduct
      = .ok ([sampleResolvedRecord]
          ++ sampleBundleProduct.variants.flatMap (fun _ => [])) :=
  ⟨(c6_catalog_iteration_order envResolved [sampleBundleProduct]
      (fun _ => [sampleResolvedRecord]) sampleBundleProduct sampleBundleMetafields
      [sampleResolvedRecord] (fun _ => [])).1
     (by intro p hp; rw [List.mem_singleton] at hp; subst hp; rfl),
   (c6_catalog_iteration_order envResolved [sampleBundleProduct]
      (fun _ => [sampleResolvedRecord]) sampleBundleProduct sampleBundleMetafields
      [sampleResolvedRecord] (fun _ => [])).2 rfl rfl
      (by intro v hv; simp [sampleBundleProduct] at hv)⟩

/-- The running fold of `Math.min` never exceeds its starting value. -/
theorem foldlMin_le_init (l : List FComponent) :
    ∀ a : ℤ, l.foldl (fun m x => min m x.maxBundles) a ≤ a := by
  induction l with
  | nil => intro a; simp
  | cons c rest ih =>
    intro a
    simp only [List.foldl]
    exact le_trans (ih _) (min_le_left _ _)

/-- The running fold of `Math.min` never exceeds any member's value. -/
theorem foldlMin_le_mem (l : List FComponent) :
    ∀ (a : ℤ) (c : FComponent), c ∈ l →
      l.foldl (fun m x => min m x.maxBundles) a ≤ c.maxBundles := by
  induction l with
  | nil => intro a c hc; cases hc
  | cons d rest ih =>
    intro a c hc
    rcases List.mem_cons.mp hc with rfl | hc'
    · simp only [List.foldl]
      exact le_trans (foldlMin_le_init rest _) (min_le_right _ _)
    · exact ih _ c hc'

/-- The running fold of `Math.min` is attained: it is either the starting
value or some member's value. -/
theorem foldlMin_attained (l : List FComponent) :
    ∀ a : ℤ, l.foldl (fun m x => min m x.maxBundles) a = a ∨
      ∃ c ∈ l, l.foldl (fun m x => min m x.maxBundles) a = c.maxBundles := by
  induction l with
  | nil => intro a; left; rfl
  | cons d rest ih =>
    intro a
    rcases ih (min a d.maxBundles) with h | ⟨c, hc, hcase⟩
    · rcases le_total a d.maxBundles with hle | hle
      · left
        simp only [List.foldl]
        rw [h, min_eq_left hle]
      · right
        refine ⟨d, List.mem_cons_self d rest, ?_⟩
        simp only [List.foldl]
        rw [h, min_eq_right hle]
    · right
      exact ⟨c, List.mem_cons_of_mem d hc, hcase⟩

/-- Claim C8: the presentation layer's limiting threshold is the minimum of
`maxBundles` over the bundle's components — 0 when the component list is
empty — and, for an expanded bundle, the component row at index `i` is
flagged limiting exactly when that component's `maxBundles` equals the
minimum. -/
theorem c8_limiting_component_min (b : FBundle) :
    minMaxBundles [] = 0 ∧
    (∀ c ∈ b.components, minMaxBundles b.components ≤ c.maxBundles) ∧
    (b.components ≠ [] →
      ∃ c ∈ b.components, c.maxBundles = minMaxBundles b.components) ∧
    (b.isExpanded = some true →
      ∀ i (hi : i < b.components.length),
        ∃ row, (bundleItems b).get? (i + 1) = some row ∧
          (rowIsLimiting row = true ↔
            (b.components.get ⟨i, hi⟩).maxBundles = minMaxBundles b.components)) := by
  refine ⟨rfl, ?_, ?_, ?_⟩
  · intro c hc
    cases hcomps : b.components with
    | nil => rw [hcomps] at hc; cases hc
    | cons d rest =>
      rw [hcomps] at hc
      rcases List.mem_cons.mp hc with rfl | hc'
      · simpa [minMaxBundles] using foldlMin_le_init rest c.maxBundles
      · simpa [minMaxBundles] using foldlMin_le_mem rest d.maxBundles c hc'
  · intro hne
    cases hcomps : b.components with
    | nil => exact absurd hcomps hne
    | cons d rest =>
      rcases foldlMin_attained rest d.maxBundles with h | ⟨c, hc, hcase⟩
      · exact ⟨d, List.mem_cons_self d rest, by simpa [minMaxBundles] using h.symm⟩
      · exact ⟨c, List.mem_cons_of_mem d hc, by simpa [minMaxBundles] using hcase.symm⟩
  · intro hexp i hi
    refine ⟨TableItem.componentRow
      (toString b.id ++ "-component-" ++ toString i)
      (b.components.get ⟨i, hi⟩).name (b.components.get ⟨i, hi⟩).sku
      (b.components.get ⟨i, hi⟩).stock (b.components.get ⟨i, hi⟩).quantity
      (b.components.get ⟨i, hi⟩).maxBundles
      ((b.components.get ⟨i, hi⟩).maxBundles == minMaxBundles b.components), ?_, ?_⟩
    · simp only [bundleItems, hexp, Option.getD_some, if_true, List.get?_cons_succ,
        List.get?_map, List.enum_get?, List.get?_eq_get hi, Option.map_some']
    · simp only [rowIsLimiting, beq_iff_eq]

/-- A sample component list: maxBundles 5 and 3 (the minimum). -/
def sampleFComponents : List FComponent :=
  [{ productId := 20, variantId := none, name := "Widget", sku := "W-20",
     quantity := 2, stock := 10, maxBundles := 5 },
   { productId := 21, variantId := some 5, name := "Gadget - Red", sku := "G-21",
     quantity := 1, stock := 3, maxBundles := 3 }]

/-- A sample expanded bundle for the page. -/
def sampleFBundle : FBundle where
  id := 10
  name := "Bundle A"
  sku := "BDL-1"
  stock := 5
  components := sampleFComponents
  isExpanded := some true

/-- Witness for C8 at a concrete input: the minimum is attained in the
sample bundle, and row index 1 (the component with maxBundles 3) carries
the limiting flag exactly when its maxBundles equals the minimum. -/
theorem c8_limiting_component_min_witness :
    (∃ c ∈ sampleFBundle.components,
      c.maxBundles = minMaxBundles sampleFBundle.components) ∧
    (∃ row, (bundleItems sampleFBundle).get? 2 = some row ∧
      (rowIsLimiting row = true ↔
        (sampleFBundle.components.get ⟨1, by decide⟩).maxBundles
          = minMaxBundles sampleFBundle.components)) :=
  ⟨(c8_limiting_component_min sampleFBundle).2.2.1 (by decide),
   (c8_limiting_component_min sampleFBundle).2.2.2 rfl 1 (by decide)⟩

/-- Claim C10: toggling expansion maps the list pointwise — the length is
unchanged, every bundle whose id differs from the toggled id is unchanged,
and a bundle whose id matches changes only by having its `isExpanded` flag
replaced with the JavaScript negation of its old value (all other fields,
and every position, are preserved). -/
theorem c10_toggle_expand_frame (bundles : List FBundle) (bundleId : ℤ) :
    (toggleExpand bundles bundleId).length = bundles.length ∧
    (∀ i b, bundles.get? i = some b →
      (toggleExpand bundles bundleId).get? i = some (
        if b.id = bundleId then
          { b with isExpanded := some (! b.isExpanded.getD false) }
        else b)) := by
  constructor
  · simp [toggleExpand]
  · intro i b hb
    simp only [toggleExpand, List.get?_map, hb, Option.map_some']
    by_cases h : b.id = bundleId
    · simp [h]
    · simp [h]

/-- Witness for C10 at a concrete input: toggling id 10 in a two-bundle
list flips only the matching bundle's flag and leaves the other bundle
untouched. -/
theorem c10_toggle_expand_frame_witness :
    (toggleExpand [sampleFBundle, { sampleFBundle with id := 11 }] 10).length
      = [sampleFBundle, { sampleFBundle with id := 11 }].length ∧
    (toggleExpand [sampleFBundle, { sampleFBundle with id := 11 }] 10).get? 0
      = some (if sampleFBundle.id = 10 then
          { sampleFBundle with
            isExpanded := some (! sampleFBundle.isExpanded.getD false) }
        else sampleFBundle) ∧
    (toggleExpand [sampleFBundle, { sampleFBundle with id := 11 }] 10).get? 1
      = some (if ({ sampleFBundle with id := 11 } : FBundle).id = 10 then
          { ({ sampleFBundle with id := 11 } : FBundle) with
            isExpanded := some
              (! ({ sampleFBundle with id := 11 } : FBundle).isExpanded.getD false) }
        else { sampleFBundle with id := 11 }) :=
  ⟨(c10_toggle_expand_frame [sampleFBundle, { sampleFBundle with id := 11 }] 10).1,
   (c10_toggle_expand_frame [sampleFBundle, { sampleFBundle with id := 11 }] 10).2
     0 sampleFBundle rfl,
   (c10_toggle_expand_frame [sampleFBundle, { sampleFBundle with id := 11 }] 10).2
     1 { sampleFBundle with id := 11 } rfl⟩

end BundlePlugin
